import Mathlib

/-!
Shallow embedding of the authentication/token core of the
`npushpakumara/go-backend-template` repository, and verification of the
frozen claims about it.

Modelling conventions:

* Go sentinel error values (`errors.New` package-level variables such as
  `pkg/errors.ErrInvalidToken`, `postgres.ErrKeyDuplicate`) become
  constructors of the inductive `GoError`; the Go `errors.Is` check on a
  sentinel becomes equality on `GoError`.  Errors produced by the
  golang-jwt/v5 library (`jwt.ErrTokenMalformed`, `jwt.ErrTokenExpired`,
  `jwt.ErrTokenSignatureInvalid`, keyfunc failures, invalid-claims
  failures) and the bcrypt library are likewise distinct constructors,
  because they are distinct, distinguishable error values in Go.
* Go strings holding passwords are modelled by `PwStr`: a Go string is
  either empty, a well-formed bcrypt hash (characterised by the hashed
  plaintext and a salt, the cost being the fixed `bcrypt.DefaultCost`),
  or some other string that is not a valid bcrypt hash.  This is the
  standard symbolic model of bcrypt: `bcrypt.CompareHashAndPassword`
  succeeds exactly on the hash of the same plaintext, fails with
  `bcrypt.ErrMismatchedHashAndPassword` on a well-formed hash of a
  different plaintext, and fails with a hash-format error (e.g.
  `ErrHashTooShort`) on anything that is not a bcrypt hash.
  `bcrypt.GenerateFromPassword` fails only when the cost parameter is out
  of range; the code always uses `bcrypt.DefaultCost`, so hashing is
  total in the model.
* JWTs are modelled symbolically: a wire token is either unparsable
  (`Wire.malformed`) or a parsed token carrying a header algorithm, a
  claims map and a signature.  An HMAC signature is modelled as the pair
  of the signing key and the signed content (a perfect MAC), so signature
  verification is equality of the recomputed signature.
* Time is an explicit `Int` (Unix seconds) threaded through the
  operations that read the clock.
-/

deriving instance DecidableEq for Except

namespace GoBackend

/-- Distinct Go error values reachable in the modelled code.
`other` covers injected infrastructure faults (database connectivity,
SMTP transport, ...) that the code passes through unchanged. -/
inductive GoError where
  /-- jwt.ErrTokenMalformed: the token string cannot be parsed. -/
  | tokenMalformed
  /-- golang-jwt keyfunc failure (ErrTokenUnverifiable): the code's keyfunc
  rejects any non-HMAC signing method with a fresh error. -/
  | tokenUnverifiable
  /-- jwt.ErrTokenSignatureInvalid. -/
  | signatureInvalid
  /-- jwt.ErrTokenExpired (wrapped under ErrTokenInvalidClaims by v5). -/
  | tokenExpired
  /-- golang-jwt claims-validation failure other than expiry
  (e.g. an exp claim that is not a number). -/
  | invalidClaims
  /-- pkg/errors.ErrInvalidToken. -/
  | invalidToken
  /-- postgres.ErrKeyDuplicate (pg unique violation 23505). -/
  | keyDuplicate
  /-- postgres.ErrForeignKeyViolation (pg 23503). -/
  | foreignKeyViolation
  /-- postgres.ErrUniqueViolation (pg 23514). -/
  | uniqueViolation
  /-- postgres.ErrRecordNotFound. -/
  | recordNotFound
  /-- pkg/errors.ErrIncorrectPassword. -/
  | incorrectPassword
  /-- pkg/errors.ErrAccountNotActive. -/
  | accountNotActive
  /-- pkg/errors.ErrEmailLinkedToOauth. -/
  | emailLinkedToOauth
  /-- bcrypt.ErrMismatchedHashAndPassword. -/
  | bcryptMismatch
  /-- a bcrypt hash-format error such as bcrypt.ErrHashTooShort:
  the stored value is not a well-formed bcrypt hash. -/
  | bcryptInvalidHash
  /-- any other error value, passed through unchanged. -/
  | other (msg : String)
deriving DecidableEq, Repr

/-- A Go string in password position: empty, a well-formed bcrypt hash of
`plain` with a random `salt` (cost fixed to `bcrypt.DefaultCost`), or some
other string that is not a valid bcrypt hash. -/
inductive PwStr where
  | empty
  | bcryptHash (plain : String) (salt : Nat)
  | other (s : String)
deriving DecidableEq, Repr

/-- bcrypt.CompareHashAndPassword: `none` on match; the mismatch sentinel
on a well-formed hash of a different plaintext; a hash-format error when
the first argument is not a well-formed bcrypt hash (an empty string is
shorter than any valid hash). -/
def compareHashAndPassword : PwStr → String → Option GoError
  | .bcryptHash plain _, pw => if plain = pw then none else some .bcryptMismatch
  | .empty, _ => some .bcryptInvalidHash
  | .other _, _ => some .bcryptInvalidHash

/-- hashPassword from internal/features/auth (part of the auth package,
see the bcrypt helper file): `bcrypt.GenerateFromPassword` with
`bcrypt.DefaultCost`.  The error branch is unreachable because
GenerateFromPassword fails only on an out-of-range cost. -/
def hashPassword (password : String) (salt : Nat) : PwStr :=
  .bcryptHash password salt

/-- checkPassword from internal/features/auth: wraps
`bcrypt.CompareHashAndPassword`, mapping the mismatch sentinel to
`pkg/errors.ErrIncorrectPassword` and passing every other error through
unchanged. -/
def checkPassword (hashedPassword : PwStr) (password : String) : Option GoError :=
  match compareHashAndPassword hashedPassword password with
  | none => none
  | some e => if e = .bcryptMismatch then some .incorrectPassword else some e

/-- A JSON claim value as far as the code inspects claims: the code only
distinguishes strings (for "sub"), numbers (for "exp"/"iat") and
everything else. -/
inductive ClaimVal where
  | vStr (s : String)
  | vNum (n : Int)
  | vBool (b : Bool)
deriving DecidableEq, Repr

/-- The claims map of a token (jwt.MapClaims). -/
abbrev JwtClaims := List (String × ClaimVal)

/-- Lookup of a claim by key, first match (Go map keys are unique). -/
def lookupClaim : JwtClaims → String → Option ClaimVal
  | [], _ => none
  | (k, v) :: rest, key => if k = key then some v else lookupClaim rest key

/-- Signing algorithms distinguished by the code: the keyfunc accepts the
whole HMAC family (`*jwt.SigningMethodHMAC`) and rejects anything else. -/
inductive JwtAlg where
  | HS256
  | HS384
  | HS512
  | RS256
deriving DecidableEq, Repr

/-- Whether the header algorithm is an HMAC method, i.e. whether the Go
type assertion `token.Method.(*jwt.SigningMethodHMAC)` succeeds. -/
def JwtAlg.isHmac : JwtAlg → Bool
  | .HS256 => true
  | .HS384 => true
  | .HS512 => true
  | .RS256 => false

/-- A signature value, modelled as a perfect MAC: an HMAC signature is
determined by the key, the algorithm and the signed claims, and verifies
only against exactly that triple.  `forged` is an arbitrary byte string
that is not a valid signature of anything. -/
inductive JwtSig where
  | hmac (secret : String) (alg : JwtAlg) (claims : JwtClaims)
  | forged (bytes : String)
deriving DecidableEq, Repr

/-- A structurally well-formed (parsable) JWT. -/
structure JwtTok where
  alg : JwtAlg
  claims : JwtClaims
  sig : JwtSig
deriving DecidableEq, Repr

/-- A token string on the wire: either it does not parse as a JWT at all,
or it parses into a `JwtTok`. -/
inductive Wire where
  | malformed (s : String)
  | tok (t : JwtTok)
deriving DecidableEq, Repr

/-- NewJwtToken (internal/features/auth/tokens/tokens.go): registered
claims with issuer "example.com", subject `id`, exp = now + exp duration,
iat = now, signed with HS256 under `secret`.  Signing with HS256 and a
byte-slice key cannot fail, so the Go error branch is unreachable and the
model returns the token directly. -/
def newJwtToken (id secret : String) (exp : Int) (now : Int) : JwtTok :=
  let claims : JwtClaims :=
    [("iss", .vStr "example.com"), ("sub", .vStr id),
     ("exp", .vNum (now + exp)), ("iat", .vNum now)]
  { alg := .HS256, claims := claims, sig := .hmac secret .HS256 claims }

/-- jwt.Parse (golang-jwt v5) specialised to the keyfunc used in
ExtractSubjectFromToken.  v5 order of checks: decode (malformed), keyfunc
(the code rejects non-HMAC methods, surfaced as an ErrTokenUnverifiable
keyfunc error), signature verification, then claims validation.  The
default validator checks only "exp" here (iat is not verified by default,
and the minted tokens carry no nbf): the token is expired when
now < exp fails, i.e. when now ≥ exp; a missing exp claim is accepted; a
non-numeric exp is an invalid-claims error. -/
def jwtParse (secret : String) (now : Int) (w : Wire) : Except GoError JwtTok :=
  match w with
  | .malformed _ => .error .tokenMalformed
  | .tok t =>
    if t.alg.isHmac then
      if t.sig = JwtSig.hmac secret t.alg t.claims then
        match lookupClaim t.claims "exp" with
        | some (.vNum e) => if now < e then .ok t else .error .tokenExpired
        | some _ => .error .invalidClaims
        | none => .ok t
      else .error .signatureInvalid
    else .error .tokenUnverifiable

/-- ExtractSubjectFromToken (internal/features/auth/tokens/tokens.go):
parse with the HMAC-only keyfunc; on any parse error return that error
unchanged (`return "", err`).  On success the claims are always
jwt.MapClaims and the token is valid, so the first ErrInvalidToken branch
is unreachable; the "sub" claim must be present and a string, otherwise
pkg/errors.ErrInvalidToken is returned. -/
def extractSubjectFromToken (secret : String) (now : Int) (w : Wire) :
    Except GoError String :=
  match jwtParse secret now w with
  | .error e => .error e
  | .ok t =>
    match lookupClaim t.claims "sub" with
    | some (.vStr s) => .ok s
    | _ => .error .invalidToken

/-- The User entity (internal/features/user/entity/user.go) as used by
user_service.go: id, names, unique email, password, phone number, active
flag, OAuth provider name and provider-issued id, and the gorm-managed
creation timestamp.  Field defaults are the Go zero values, which Go
struct literals give to omitted fields. -/
structure Account where
  id : String := ""
  firstName : String := ""
  lastName : String := ""
  email : String := ""
  password : PwStr := .empty
  phoneNumber : String := ""
  isActive : Bool := false
  provider : String := ""
  providerID : String := ""
  createdAt : Int := 0
deriving DecidableEq, Repr

/-- The user table: the durable list of accounts. -/
abbrev DB := List Account

/-- Per-call environment: configuration (JWT secret), the oracles the code
reads (fresh uuid, bcrypt salt, clock) and injectable infrastructure
faults of the external collaborators (database Create, email dispatch).
`none` means the collaborator succeeds. -/
structure Env where
  jwtSecret : String := "secret"
  freshId : String := "id-1"
  salt : Nat := 0
  now : Int := 0
  insertFault : Option GoError := none
  emailFault : Option GoError := none
deriving Repr

/-- userRepositoryImpl.Insert (user_repository.go): gorm Create.  The
BeforeCreate hook assigns a fresh uuid when the id is unset, and gorm
stamps CreatedAt.  An organic unique violation on the email column (pg
23505) is mapped through postgres.IsPgxError to postgres.ErrKeyDuplicate;
this happens exactly when the database already holds a row with the same
email.  Any other Create failure (modelled by `Env.insertFault`) is
returned unchanged. -/
def repoInsert (env : Env) (db : DB) (u : Account) : Except GoError (Account × DB) :=
  match env.insertFault with
  | some e => .error e
  | none =>
    if db.any (fun a => a.email = u.email) then .error .keyDuplicate
    else
      let saved : Account :=
        { u with id := if u.id = "" then env.freshId else u.id, createdAt := env.now }
      .ok (saved, db ++ [saved])

/-- userRepositoryImpl.FindByEmail (user_repository.go): gorm First with
an email predicate; gorm.ErrRecordNotFound is mapped to
postgres.ErrRecordNotFound. -/
def repoFindByEmail (db : DB) (email : String) : Except GoError Account :=
  match db.find? (fun a => a.email = email) with
  | some a => .ok a
  | none => .error .recordNotFound

/-- userRepositoryImpl.FindByID (user_repository.go): gorm First with an
id predicate; gorm.ErrRecordNotFound is mapped to
postgres.ErrRecordNotFound. -/
def repoFindByID (db : DB) (id : String) : Except GoError Account :=
  match db.find? (fun a => a.id = id) with
  | some a => .ok a
  | none => .error .recordNotFound

/-- The `map[string]interface{}` update payloads the services build: the
code only ever sends the keys "is_active" and "password". -/
structure UpdateFields where
  isActive : Option Bool := none
  password : Option PwStr := none

/-- Application of an update payload to one row. -/
def applyUpdates (u : UpdateFields) (a : Account) : Account :=
  { a with
    isActive := u.isActive.getD a.isActive,
    password := u.password.getD a.password }

/-- userRepositoryImpl.Update (user_repository.go): gorm
`Model(...).Where("id = ?", id).Updates(updates)`.  GORM's Updates issues
an UPDATE statement and reports no error when zero rows match — in gorm,
ErrRecordNotFound is produced only by the single-row query methods (First,
Take, Last), never by Updates — so the Go code's ErrRecordNotFound branch
is unreachable and the call succeeds whether or not any row has this id. -/
def repoUpdate (db : DB) (id : String) (u : UpdateFields) : Except GoError DB :=
  .ok (db.map (fun a => if a.id = id then applyUpdates u a else a))

/-- RegisterRequestDto (internal/features/user/dto): the service-level
registration payload.  Its Password carries the already-hashed password
on the local path and the Go zero value (empty) on the OAuth path. -/
structure RegisterRequestDto where
  firstName : String := ""
  lastName : String := ""
  email : String := ""
  password : PwStr := .empty
  phoneNumber : String := ""
  provider : String := ""
  providerID : String := ""
deriving Repr

/-- UserResponseDto (internal/features/user/dto/response.go).  Field
defaults are the Go zero values, which struct literals give to omitted
fields. -/
structure UserResponseDto where
  id : String := ""
  firstName : String := ""
  lastName : String := ""
  email : String := ""
  password : PwStr := .empty
  phoneNumber : String := ""
  isActive : Bool := false
  provider : String := ""
  providerID : String := ""
  createdAt : Int := 0
  updatedAt : Int := 0
deriving DecidableEq, Repr

/-- userServiceImpl.CreateUser (internal/features/user/user_service.go):
build the entity from the request — the literal omits Password, and the
code assigns `requestBody.Password = user.Password` only when
`user.ProviderID == ""` — insert it, and map the saved entity to a
response DTO whose literal sets only ID, FirstName, LastName, Email and
CreatedAt (every other field keeps its Go zero value). -/
def createUser (env : Env) (db : DB) (user : RegisterRequestDto) :
    Except GoError (UserResponseDto × DB) :=
  let requestBody : Account :=
    { firstName := user.firstName
      lastName := user.lastName
      email := user.email
      phoneNumber := user.phoneNumber
      provider := user.provider
      providerID := user.providerID
      password := if user.providerID = "" then user.password else .empty }
  match repoInsert env db requestBody with
  | .error e => .error e
  | .ok (newUser, db2) =>
    .ok ({ id := newUser.id
           firstName := newUser.firstName
           lastName := newUser.lastName
           email := newUser.email
           createdAt := newUser.createdAt }, db2)

/-- userServiceImpl.GetUserByEmail (user_service.go): fetch by email and
map to a response DTO; the literal sets ID, FirstName, LastName, Email,
Password, CreatedAt, IsActive and ProviderID — notably not Provider or
PhoneNumber, which stay at their Go zero values. -/
def getUserByEmail (db : DB) (email : String) : Except GoError UserResponseDto :=
  match repoFindByEmail db email with
  | .error e => .error e
  | .ok user =>
    .ok { id := user.id
          firstName := user.firstName
          lastName := user.lastName
          email := user.email
          password := user.password
          createdAt := user.createdAt
          isActive := user.isActive
          providerID := user.providerID }

/-- userServiceImpl.GetUserByID (user_service.go): fetch by id and map to
a response DTO; the literal sets ID, FirstName, LastName, Email,
CreatedAt and IsActive only. -/
def getUserByID (db : DB) (id : String) : Except GoError UserResponseDto :=
  match repoFindByID db id with
  | .error e => .error e
  | .ok user =>
    .ok { id := user.id
          firstName := user.firstName
          lastName := user.lastName
          email := user.email
          createdAt := user.createdAt
          isActive := user.isActive }

/-- userServiceImpl.UpdateUser (user_service.go): pass-through to the
repository Update. -/
def updateUser (db : DB) (userId : String) (updates : UpdateFields) :
    Except GoError DB :=
  repoUpdate db userId updates

/-- SignUpRequestDto (internal/features/auth/dto/request.go): the raw
sign-up payload; Password is the plaintext. -/
structure SignUpRequestDto where
  firstName : String := ""
  lastName : String := ""
  email : String := ""
  password : String := ""
  phoneNumber : String := ""
deriving Repr

/-- SignInRequestDto (internal/features/auth/dto/request.go). -/
structure SignInRequestDto where
  email : String := ""
  password : String := ""
deriving Repr

/-- PasswordResetRequestDto (internal/features/auth/dto/request.go). -/
structure PasswordResetRequestDto where
  email : String := ""
  currentPassword : String := ""
  newPassword : String := ""
deriving Repr

/-- The goth.User fields read by HandleOAuthUser. -/
structure GothUser where
  provider : String := ""
  email : String := ""
  firstName : String := ""
  lastName : String := ""
  userID : String := ""
deriving Repr

/-- OAuthResponseDto (internal/features/auth/dto): the public-safe OAuth
result.  The struct has no password field at all. -/
structure OAuthResponseDto where
  id : String := ""
  firstName : String := ""
  lastName : String := ""
  email : String := ""
  provider : String := ""
  providerID : String := ""
deriving DecidableEq, Repr

/-- authServiceImpl.SendAccountVerificationEmail (auth_service.go): mint a
48-hour activation token for the user's id (HS256 signing cannot fail,
so the error branch is unreachable), build the verification email around
it, and dispatch it through the email service; the dispatch outcome is
the notifier oracle `Env.emailFault`. -/
def sendAccountVerificationEmail (env : Env) (requestBody : UserResponseDto) :
    Option GoError :=
  let tokenString := newJwtToken requestBody.id env.jwtSecret (48 * 3600) env.now
  match tokenString with
  | _ => env.emailFault

/-- Result of one RegisterUser call: the error returned to the caller,
the durable database state afterwards, which transaction-manager calls
the code actually performed, and whether the notifier was reached. -/
structure RegisterOutcome where
  result : Option GoError
  db : DB
  committed : Bool
  rolledBack : Bool
  /-- the code returned while the transaction begun at entry was neither
  committed nor rolled back (the gorm tx handle, and its connection, leak). -/
  txLeaked : Bool
  emailAttempted : Bool
  emailSent : Bool
deriving DecidableEq, Repr

/-- authServiceImpl.RegisterUser (auth_service.go).  Control flow of the
source, including the deferred-rollback check exactly as written:

1. `ctx, err := Begin(c)` (connection faults out of scope; Begin succeeds);
   the deferred closure registered next runs Rollback iff the function
   panicked or the OUTER `err` variable is non-nil at return.
2. hash the password (`hashedPassword, err := ...` reassigns the outer
   `err`; with DefaultCost this never fails, see `hashPassword`).
3. `newUser, err := CreateUser(ctx, payload)` reassigns the outer `err`;
   on failure it is non-nil at return, so the deferred Rollback runs.
4. `if err := SendAccountVerificationEmail(ctx, newUser); err != nil
   { return err }` declares a NEW `err` scoped to the if statement; the
   outer `err` stays nil, so on email failure the function returns the
   email error while the deferred closure sees a nil `err` and does NOT
   roll back — and Commit was never reached, so the transaction leaks and
   its insert never becomes durable.
5. `Commit(ctx)` (its error is discarded) makes the insert durable. -/
def registerUser (env : Env) (db : DB) (requestBody : SignUpRequestDto) :
    RegisterOutcome :=
  let hashedPassword := hashPassword requestBody.password env.salt
  let userPayload : RegisterRequestDto :=
    { firstName := requestBody.firstName
      lastName := requestBody.lastName
      email := requestBody.email
      password := hashedPassword
      phoneNumber := requestBody.phoneNumber }
  match createUser env db userPayload with
  | .error e =>
    { result := some e, db := db, committed := false, rolledBack := true,
      txLeaked := false, emailAttempted := false, emailSent := false }
  | .ok (newUser, txDb) =>
    match sendAccountVerificationEmail env newUser with
    | some e =>
      { result := some e, db := db, committed := false, rolledBack := false,
        txLeaked := true, emailAttempted := true, emailSent := false }
    | none =>
      { result := none, db := txDb, committed := true, rolledBack := false,
        txLeaked := false, emailAttempted := true, emailSent := true }

/-- authServiceImpl.ActivateAccount (auth_service.go): extract the
subject from the token with the configured secret; on any extraction
error return it unchanged; otherwise send the partial update
`{"is_active": true}` for that id and return the id. -/
def activateAccount (env : Env) (db : DB) (token : Wire) :
    (Except GoError String) × DB :=
  match extractSubjectFromToken env.jwtSecret env.now token with
  | .error e => (.error e, db)
  | .ok id =>
    match updateUser db id { isActive := some true } with
    | .error e => (.error e, db)
    | .ok db2 => (.ok id, db2)

/-- Result of one LoginUser call, instrumented with whether the password
check (`checkPassword`) was reached. -/
structure LoginResult where
  result : Except GoError String
  passwordChecked : Bool
deriving DecidableEq, Repr

/-- authServiceImpl.LoginUser (auth_service.go): fetch by email (errors
pass through, so a missing account surfaces postgres.ErrRecordNotFound);
reject with pkg/errors.ErrEmailLinkedToOauth when the fetched DTO's
ProviderID is non-empty; reject with ErrAccountNotActive when inactive;
only then verify the password, passing any checkPassword error through
unchanged; on success return the account id. -/
def loginUser (db : DB) (requestBody : SignInRequestDto) : LoginResult :=
  match getUserByEmail db requestBody.email with
  | .error e => { result := .error e, passwordChecked := false }
  | .ok resp =>
    if resp.providerID ≠ "" then
      { result := .error .emailLinkedToOauth, passwordChecked := false }
    else if !resp.isActive then
      { result := .error .accountNotActive, passwordChecked := false }
    else
      match checkPassword resp.password requestBody.password with
      | some e => { result := .error e, passwordChecked := true }
      | none => { result := .ok resp.id, passwordChecked := true }

/-- authServiceImpl.ResetPassword (auth_service.go): fetch by email; run
checkPassword on the stored hash and the supplied current password and on
ANY checkPassword error return pkg/errors.ErrIncorrectPassword (the
source replaces the error wholesale: `return apiError.ErrIncorrectPassword`);
then hash the new password and persist it via partial update. -/
def resetPassword (env : Env) (db : DB) (request : PasswordResetRequestDto) :
    (Except GoError Unit) × DB :=
  match getUserByEmail db request.email with
  | .error e => (.error e, db)
  | .ok resp =>
    match checkPassword resp.password request.currentPassword with
    | some _ => (.error .incorrectPassword, db)
    | none =>
      let hashedPassword := hashPassword request.newPassword env.salt
      match updateUser db resp.id { password := some hashedPassword } with
      | .error e => (.error e, db)
      | .ok db2 => (.ok (), db2)

/-- The RegisterRequestDto HandleOAuthUser builds from the goth user
(auth_service.go): names, email, provider and provider-issued user id;
Password and PhoneNumber keep their Go zero values. -/
def oauthPayload (gothUser : GothUser) : RegisterRequestDto :=
  { firstName := gothUser.firstName
    lastName := gothUser.lastName
    email := gothUser.email
    provider := gothUser.provider
    providerID := gothUser.userID }

/-- Mapping of the resolved user DTO onto OAuthResponseDto
(auth_service.go): ID, FirstName, LastName, Email, Provider, ProviderID. -/
def oauthDtoOf (resp : UserResponseDto) : OAuthResponseDto :=
  { id := resp.id
    firstName := resp.firstName
    lastName := resp.lastName
    email := resp.email
    provider := resp.provider
    providerID := resp.providerID }

/-- Result of one HandleOAuthUser call, instrumented with whether the
duplicate-email fallback path was taken. -/
structure OAuthOutcome where
  result : Except GoError OAuthResponseDto
  db : DB
  fallbackUsed : Bool
deriving DecidableEq, Repr

/-- authServiceImpl.HandleOAuthUser (auth_service.go): try CreateUser on
the payload built from the goth user; when it fails with exactly
postgres.ErrKeyDuplicate (`errors.Is`), fall back to GetUserByEmail and
use that DTO (or return its error); any other creation error is returned
with no fallback; on success map the resolved DTO to OAuthResponseDto. -/
def handleOAuthUser (env : Env) (db : DB) (gothUser : GothUser) : OAuthOutcome :=
  match createUser env db (oauthPayload gothUser) with
  | .ok (resp, db2) =>
    { result := .ok (oauthDtoOf resp), db := db2, fallbackUsed := false }
  | .error e =>
    if e = .keyDuplicate then
      match getUserByEmail db gothUser.email with
      | .ok resp => { result := .ok (oauthDtoOf resp), db := db, fallbackUsed := true }
      | .error e2 => { result := .error e2, db := db, fallbackUsed := true }
    else
      { result := .error e, db := db, fallbackUsed := false }

/-- C1 (corrected), counterexample to the claim as stated: a token issued
with ttl = 1 at time 0 and verified at time 1 (after the ttl elapsed) is
rejected with the jwt library's token-expired error, not with the
InvalidToken error the claim names. -/
theorem c1_expired_not_invalid_token :
    extractSubjectFromToken "s" 1 (.tok (newJwtToken "u" "s" 1 0)) =
      .error .tokenExpired ∧
    GoError.tokenExpired ≠ GoError.invalidToken := ⟨rfl, by decide⟩

/-- C1 (amended): verifying a freshly issued token with the same secret
before the ttl elapses returns exactly the subject id; once the ttl has
elapsed, verification fails — but with the jwt library's token-expired
error, not with the InvalidToken error. -/
theorem c1_token_roundtrip (id secret : String) (ttl t0 t1 : Int)
    (httl : 0 < ttl) :
    (t1 < t0 + ttl →
      extractSubjectFromToken secret t1 (.tok (newJwtToken id secret ttl t0)) =
        .ok id) ∧
    (t0 + ttl ≤ t1 →
      extractSubjectFromToken secret t1 (.tok (newJwtToken id secret ttl t0)) =
        .error .tokenExpired) := by
  constructor
  · intro h
    simp [extractSubjectFromToken, jwtParse, newJwtToken, JwtAlg.isHmac,
      lookupClaim, h]
  · intro h
    simp [extractSubjectFromToken, jwtParse, newJwtToken, JwtAlg.isHmac,
      lookupClaim, not_lt.mpr h]

/-- Witness for `c1_token_roundtrip` at subject "subj", secret "k",
ttl 10 issued at 0, verified at times 3 and 10. -/
theorem c1_token_roundtrip_witness :
    extractSubjectFromToken "k" 3 (.tok (newJwtToken "subj" "k" 10 0)) =
      .ok "subj" ∧
    extractSubjectFromToken "k" 10 (.tok (newJwtToken "subj" "k" 10 0)) =
      .error .tokenExpired :=
  ⟨(c1_token_roundtrip "subj" "k" 10 0 3 (by decide)).1 (by decide),
   (c1_token_roundtrip "subj" "k" 10 0 10 (by decide)).2 (by decide)⟩

/-- C3 (corrected), counterexample to the claim as stated: a malformed
token fails verification with the jwt library's malformed-token error,
not with the single InvalidToken error the claim says every failure
collapses into — so the error does reveal the cause. -/
theorem c3_malformed_not_invalid_token :
    extractSubjectFromToken "k" 0 (.malformed "not-a-jwt") =
      .error .tokenMalformed ∧
    GoError.tokenMalformed ≠ GoError.invalidToken := ⟨rfl, by decide⟩

/-- C3 (amended): every listed failure mode makes ExtractSubjectFromToken
fail, but the failure modes are NOT collapsed: a malformed token, a
non-HMAC signing algorithm, an invalid signature and an expired token
each surface their own distinct underlying error (the code returns the
jwt parse error unchanged), and only a missing or non-string subject
claim in an otherwise valid token yields the InvalidToken error. -/
theorem c3_failure_modes (secret s : String) (now : Int) (t : JwtTok) :
    (extractSubjectFromToken secret now (.malformed s) =
      .error .tokenMalformed) ∧
    (t.alg.isHmac = false →
      extractSubjectFromToken secret now (.tok t) =
        .error .tokenUnverifiable) ∧
    (t.alg.isHmac = true → t.sig ≠ JwtSig.hmac secret t.alg t.claims →
      extractSubjectFromToken secret now (.tok t) =
        .error .signatureInvalid) ∧
    (∀ e : Int, t.alg.isHmac = true →
      t.sig = JwtSig.hmac secret t.alg t.claims →
      lookupClaim t.claims "exp" = some (.vNum e) → e ≤ now →
      extractSubjectFromToken secret now (.tok t) = .error .tokenExpired) ∧
    (jwtParse secret now (.tok t) = .ok t →
      (∀ str, lookupClaim t.claims "sub" ≠ some (.vStr str)) →
      extractSubjectFromToken secret now (.tok t) = .error .invalidToken) := by
  refine ⟨rfl, ?_, ?_, ?_, ?_⟩
  · intro h
    simp [extractSubjectFromToken, jwtParse, h]
  · intro h1 h2
    simp [extractSubjectFromToken, jwtParse, h1, h2]
  · intro e h1 h2 h3 h4
    simp [extractSubjectFromToken, jwtParse, h1, h2, h3, not_lt.mpr h4]
  · intro hparse hsub
    unfold extractSubjectFromToken
    rw [hparse]
    cases hv : lookupClaim t.claims "sub" with
    | none => simp [hv]
    | some v =>
      cases v with
      | vStr str => exact absurd hv (hsub str)
      | vNum n => simp [hv]
      | vBool b => simp [hv]

/-- Witness for `c3_failure_modes`: each of the five modes exercised on a
concrete token. -/
theorem c3_failure_modes_witness :
    (extractSubjectFromToken "k" 0 (.malformed "xx") = .error .tokenMalformed) ∧
    (extractSubjectFromToken "k" 0
      (.tok { alg := .RS256, claims := [("sub", .vStr "u")],
              sig := .forged "r" }) = .error .tokenUnverifiable) ∧
    (extractSubjectFromToken "k" 0
      (.tok { alg := .HS256, claims := [("sub", .vStr "u")],
              sig := .forged "r" }) = .error .signatureInvalid) ∧
    (extractSubjectFromToken "k" 9 (.tok (newJwtToken "u" "k" 4 0)) =
      .error .tokenExpired) ∧
    (extractSubjectFromToken "k" 0
      (.tok { alg := .HS256, claims := [("sub", .vNum 7)],
              sig := .hmac "k" .HS256 [("sub", .vNum 7)] }) =
      .error .invalidToken) := by
  refine ⟨(c3_failure_modes "k" "xx" 0 (newJwtToken "u" "k" 4 0)).1,
    (c3_failure_modes "k" "" 0 _).2.1 (by decide),
    (c3_failure_modes "k" "" 0 _).2.2.1 (by decide) (by decide),
    (c3_failure_modes "k" "" 9 (newJwtToken "u" "k" 4 0)).2.2.2.1 4 (by decide)
      (by decide) (by decide) (by decide),
    (c3_failure_modes "k" "" 0 _).2.2.2.2 (by decide) ?_⟩
  intro str
  simp [lookupClaim]

/-- C2 (code bug), the code evaluated at the failing input: with a fresh
email and a notifier that fails, RegisterUser returns the dispatch error,
but performs NEITHER Rollback NOR Commit — the `err` declared in the
`if err := SendAccountVerificationEmail(...)` statement shadows the outer
`err` the deferred rollback checks, so the deferred closure sees nil and
skips Rollback, and the transaction begun at entry leaks. -/
theorem c2_email_failure_skips_rollback :
    registerUser { emailFault := some (.other "smtp: dispatch failed") } []
      { firstName := "Alice", lastName := "Doe", email := "alice@example.com",
        password := "Password123", phoneNumber := "+10000000000" } =
    { result := some (.other "smtp: dispatch failed"), db := [],
      committed := false, rolledBack := false, txLeaked := true,
      emailAttempted := true, emailSent := false } := rfl

/-- C6 (code bug), the code evaluated at the failing input: a valid,
unexpired token whose subject "ghost-user" resolves to no account is
ACCEPTED — ActivateAccount returns the subject id with no error against
an empty store, because GORM's Updates reports no error when zero rows
match, so the repository's ErrRecordNotFound branch never fires. -/
theorem c6_missing_subject_accepted :
    activateAccount { jwtSecret := "k", now := 5 } []
      (.tok (newJwtToken "ghost-user" "k" 48 0)) = (.ok "ghost-user", []) := rfl

/-- C4 (confirmed): for every account whose stored provider-issued
identity (ProviderID) is non-empty, LoginUser with that account's email
returns ErrEmailLinkedToOauth regardless of the supplied password, and
the password check is never reached. -/
theorem c4_oauth_account_rejects_password_login
    (db : DB) (requestBody : SignInRequestDto) (acct : Account)
    (hfind : repoFindByEmail db requestBody.email = .ok acct)
    (hprov : acct.providerID ≠ "") :
    loginUser db requestBody =
      { result := .error .emailLinkedToOauth, passwordChecked := false } := by
  simp [loginUser, getUserByEmail, hfind, hprov]

/-- Witness for `c4_oauth_account_rejects_password_login`: a stored
Google-linked account, login attempted with a password that would even
match the stored hash. -/
theorem c4_witness :
    loginUser
      [{ id := "u1", email := "a@b.c", password := .bcryptHash "pw" 1,
         isActive := true, provider := "google", providerID := "google-123" }]
      { email := "a@b.c", password := "pw" } =
      { result := .error .emailLinkedToOauth, passwordChecked := false } :=
  c4_oauth_account_rejects_password_login
    [{ id := "u1", email := "a@b.c", password := .bcryptHash "pw" 1,
       isActive := true, provider := "google", providerID := "google-123" }]
    { email := "a@b.c", password := "pw" }
    { id := "u1", email := "a@b.c", password := .bcryptHash "pw" 1,
      isActive := true, provider := "google", providerID := "google-123" }
    rfl (by decide)

/-- Shape of a successful repository Insert: the database grows by
exactly the saved row, which keeps the email and password of the entity
handed in. -/
theorem repoInsert_ok_shape (env : Env) (db : DB) (u a : Account) (db2 : DB)
    (h : repoInsert env db u = .ok (a, db2)) :
    db2 = db ++ [a] ∧ a.email = u.email ∧ a.password = u.password := by
  simp only [repoInsert] at h
  split at h
  · simp at h
  · split at h
    · simp at h
    · simp only [Except.ok.injEq, Prod.mk.injEq] at h
      obtain ⟨h1, h2⟩ := h
      subst h1
      subst h2
      exact ⟨rfl, rfl, rfl⟩

/-- A successful repository Insert requires that no stored row already
carries the entity's email. -/
theorem repoInsert_ok_fresh_email (env : Env) (db : DB) (u a : Account)
    (db2 : DB) (h : repoInsert env db u = .ok (a, db2)) :
    db.any (fun x => x.email = u.email) = false := by
  simp only [repoInsert] at h
  split at h
  · simp at h
  · split at h
    · simp at h
    · rename_i hany
      simpa using hany

/-- Shape of a successful CreateUser: the database grows by exactly the
one entity built from the request, whose email is the request's email and
whose password is the request's password only when the request carries no
provider-issued id, the empty string otherwise. -/
theorem createUser_ok_shape (env : Env) (db : DB) (user : RegisterRequestDto)
    (resp : UserResponseDto) (db2 : DB)
    (h : createUser env db user = .ok (resp, db2)) :
    ∃ a : Account, db2 = db ++ [a] ∧ a.email = user.email ∧
      a.password = (if user.providerID = "" then user.password else .empty) := by
  simp only [createUser] at h
  split at h
  · simp at h
  · rename_i newUser dbIns heq
    simp only [Except.ok.injEq, Prod.mk.injEq] at h
    obtain ⟨hdb, hemail, hpw⟩ := repoInsert_ok_shape env db _ newUser dbIns heq
    exact ⟨newUser, h.2 ▸ hdb, hemail, hpw⟩

/-- A successful CreateUser requires that no stored account already has
the request's email. -/
theorem createUser_ok_fresh_email (env : Env) (db : DB)
    (user : RegisterRequestDto) (resp : UserResponseDto) (db2 : DB)
    (h : createUser env db user = .ok (resp, db2)) :
    db.any (fun a => a.email = user.email) = false := by
  simp only [createUser] at h
  split at h
  · simp at h
  · rename_i newUser dbIns heq
    exact repoInsert_ok_fresh_email env db _ newUser dbIns heq

/-- CreateUser fails with the duplicate-key sentinel when the store is
fault-free and some stored account already has the request's email. -/
theorem createUser_duplicate (env : Env) (db : DB) (user : RegisterRequestDto)
    (hfault : env.insertFault = none)
    (hdup : ∃ a ∈ db, a.email = user.email) :
    createUser env db user = .error .keyDuplicate := by
  obtain ⟨a, ha, haeq⟩ := hdup
  have hany : db.any (fun a => a.email = user.email) = true :=
    List.any_eq_true.mpr ⟨a, ha, by simp [haeq]⟩
  simp [createUser, repoInsert, hfault, hany]

/-- C5 (confirmed): when creating the account for an external identity
fails, HandleOAuthUser falls back to fetching the existing account by
that email — leaving the store untouched — exactly when the failure is
the duplicate-key conflict; any other creation error is returned as is,
with no fallback fetch. -/
theorem c5_oauth_duplicate_fallback (env : Env) (db : DB)
    (gothUser : GothUser) (e : GoError)
    (h : createUser env db (oauthPayload gothUser) = .error e) :
    handleOAuthUser env db gothUser =
      if e = .keyDuplicate then
        { result := Except.map oauthDtoOf (getUserByEmail db gothUser.email),
          db := db, fallbackUsed := true }
      else
        { result := .error e, db := db, fallbackUsed := false } := by
  simp only [handleOAuthUser, h]
  by_cases hd : e = .keyDuplicate
  · simp only [hd, if_pos]
    cases hg : getUserByEmail db gothUser.email <;> simp [hg, Except.map]
  · simp [hd]

/-- Witness for `c5_oauth_duplicate_fallback`: a store already holding
the email, so creation fails with the duplicate-key conflict and the
stored account is fetched and returned. -/
theorem c5_witness :
    handleOAuthUser {} [{ id := "u1", email := "a@b.c", isActive := true }]
      { provider := "google", email := "a@b.c", firstName := "Al",
        lastName := "Bo", userID := "g1" } =
      { result := .ok { id := "u1", email := "a@b.c" },
        db := [{ id := "u1", email := "a@b.c", isActive := true }],
        fallbackUsed := true } := by
  have h := c5_oauth_duplicate_fallback {}
    [{ id := "u1", email := "a@b.c", isActive := true }]
    { provider := "google", email := "a@b.c", firstName := "Al",
      lastName := "Bo", userID := "g1" } .keyDuplicate rfl
  simpa using h

/-- A committed RegisterUser grew the database by exactly one account
carrying the request's email. -/
theorem registerUser_committed_shape (env : Env) (db : DB)
    (req : SignUpRequestDto)
    (h : (registerUser env db req).committed = true) :
    ∃ a : Account, (registerUser env db req).db = db ++ [a] ∧
      a.email = req.email := by
  simp only [registerUser] at h ⊢
  split at h
  · simp at h
  · rename_i newUser txDb heq
    split at h
    · simp at h
    · rename_i heq2
      obtain ⟨a, hdb, he, _⟩ := createUser_ok_shape env db _ newUser txDb heq
      refine ⟨a, ?_, he⟩
      simp only [heq, heq2]
      exact hdb

/-- C7 (confirmed): once a RegisterUser call for some email has committed,
a second RegisterUser call with the same email (against a fault-free
store) fails with the duplicate-key error, attempts no email dispatch
(the insert fails before the notifier is reached), rolls the transaction
back and leaves the store unchanged. -/
theorem c7_duplicate_registration (env1 env2 : Env) (db : DB)
    (req1 req2 : SignUpRequestDto)
    (h1 : (registerUser env1 db req1).committed = true)
    (hemail : req2.email = req1.email)
    (hfault : env2.insertFault = none) :
    registerUser env2 (registerUser env1 db req1).db req2 =
      { result := some .keyDuplicate, db := (registerUser env1 db req1).db,
        committed := false, rolledBack := true, txLeaked := false,
        emailAttempted := false, emailSent := false } := by
  obtain ⟨a, hdb, haemail⟩ := registerUser_committed_shape env1 db req1 h1
  rw [hdb]
  have hdup := createUser_duplicate env2 (db ++ [a])
    { firstName := req2.firstName, lastName := req2.lastName,
      email := req2.email,
      password := hashPassword req2.password env2.salt,
      phoneNumber := req2.phoneNumber }
    hfault
    ⟨a, List.mem_append_right _ (by simp), haemail.trans hemail.symm⟩
  simp only [registerUser, hdup]

/-- Witness for `c7_duplicate_registration`: register alice twice. -/
theorem c7_witness :
    registerUser {} (registerUser {} []
      { firstName := "Alice", lastName := "Doe", email := "alice@example.com",
        password := "Password123", phoneNumber := "+10000000000" }).db
      { firstName := "Alice", lastName := "Doe", email := "alice@example.com",
        password := "OtherPass99", phoneNumber := "+10000000000" } =
      { result := some .keyDuplicate,
        db := (registerUser {} []
          { firstName := "Alice", lastName := "Doe",
            email := "alice@example.com", password := "Password123",
            phoneNumber := "+10000000000" }).db,
        committed := false, rolledBack := true, txLeaked := false,
        emailAttempted := false, emailSent := false } :=
  c7_duplicate_registration {} {} []
    { firstName := "Alice", lastName := "Doe", email := "alice@example.com",
      password := "Password123", phoneNumber := "+10000000000" }
    { firstName := "Alice", lastName := "Doe", email := "alice@example.com",
      password := "OtherPass99", phoneNumber := "+10000000000" }
    rfl rfl rfl

/-- C8 (corrected), counterexample to the claim as stated: on the
fresh-creation path the result does NOT carry the provider — the goth
user authenticated via "google", yet the response's provider (and
providerID) are empty, because CreateUser's response DTO literal omits
both fields. -/
theorem c8_fresh_path_drops_provider :
    (handleOAuthUser {} []
      { provider := "google", email := "a@b.c", firstName := "Al",
        lastName := "Bo", userID := "google-1" }).result =
      .ok { id := "id-1", firstName := "Al", lastName := "Bo",
            email := "a@b.c", provider := "", providerID := "" } ∧
    ("" : String) ≠ "google" := ⟨rfl, by decide⟩

/-- C8 (amended): a successful HandleOAuthUser result carries the
resolved account's id, first/last name and email, and — the response
type having no password field — never a password hash; but provider and
providerID are not carried through the intermediate user DTOs: both are
empty on the fresh-creation path, and on the duplicate-email fallback
path provider is empty while providerID is the stored value. -/
theorem c8_oauth_response_fields (env : Env) (db : DB) (gothUser : GothUser) :
    (env.insertFault = none →
      db.any (fun a => a.email = gothUser.email) = false →
      (handleOAuthUser env db gothUser).result =
        .ok { id := env.freshId, firstName := gothUser.firstName,
              lastName := gothUser.lastName, email := gothUser.email,
              provider := "", providerID := "" }) ∧
    (∀ acct : Account,
      createUser env db (oauthPayload gothUser) = .error .keyDuplicate →
      repoFindByEmail db gothUser.email = .ok acct →
      (handleOAuthUser env db gothUser).result =
        .ok { id := acct.id, firstName := acct.firstName,
              lastName := acct.lastName, email := acct.email,
              provider := "", providerID := acct.providerID }) := by
  constructor
  · intro hf hany
    simp [handleOAuthUser, createUser, repoInsert, oauthPayload, hf, hany,
      oauthDtoOf]
  · intro acct hdup hfind
    simp [handleOAuthUser, hdup, getUserByEmail, hfind, oauthDtoOf]

/-- Witness for `c8_oauth_response_fields`: the fresh-creation path on an
empty store and the fallback path on a store already holding the email. -/
theorem c8_witness :
    ((handleOAuthUser {} []
      { provider := "google", email := "w@x.y", firstName := "Fn",
        lastName := "Ln", userID := "pid-7" }).result =
      .ok { id := "id-1", firstName := "Fn", lastName := "Ln",
            email := "w@x.y", provider := "", providerID := "" }) ∧
    ((handleOAuthUser {}
      [{ id := "u9", firstName := "Ex", lastName := "Ist", email := "w@x.y",
         provider := "github", providerID := "old-pid", isActive := true }]
      { provider := "google", email := "w@x.y", firstName := "Fn",
        lastName := "Ln", userID := "pid-7" }).result =
      .ok { id := "u9", firstName := "Ex", lastName := "Ist",
            email := "w@x.y", provider := "", providerID := "old-pid" }) :=
  ⟨(c8_oauth_response_fields {} []
      { provider := "google", email := "w@x.y", firstName := "Fn",
        lastName := "Ln", userID := "pid-7" }).1 rfl rfl,
   (c8_oauth_response_fields {}
      [{ id := "u9", firstName := "Ex", lastName := "Ist", email := "w@x.y",
         provider := "github", providerID := "old-pid", isActive := true }]
      { provider := "google", email := "w@x.y", firstName := "Fn",
        lastName := "Ln", userID := "pid-7" }).2
    { id := "u9", firstName := "Ex", lastName := "Ist", email := "w@x.y",
      provider := "github", providerID := "old-pid", isActive := true }
    rfl rfl⟩

/-- C9 (corrected), counterexample to the claim as stated: for an account
whose stored password is the empty string (as OAuth-created accounts
are), the current-password check fails with the hasher-internal
invalid-hash error — not a mismatch — yet ResetPassword reports
IncorrectCredential instead of propagating that error. -/
theorem c9_internal_error_reported_as_incorrect :
    (resetPassword {}
      [{ id := "u1", email := "a@b.c", password := .empty,
         provider := "google", providerID := "google-1", isActive := true }]
      { email := "a@b.c", currentPassword := "whatever1",
        newPassword := "newpass123" }).1 = .error .incorrectPassword ∧
    checkPassword .empty "whatever1" = some .bcryptInvalidHash := ⟨rfl, rfl⟩

/-- C9 (amended): ResetPassword returns IncorrectCredential exactly when
the current-password check fails — for any reason, a mismatch and a
hasher-internal failure alike (the hasher's own error is replaced, not
propagated); when the check passes, the reset succeeds. -/
theorem c9_reset_password_check (env : Env) (db : DB)
    (request : PasswordResetRequestDto) (resp : UserResponseDto)
    (hget : getUserByEmail db request.email = .ok resp) :
    ((∃ e, checkPassword resp.password request.currentPassword = some e) →
      (resetPassword env db request).1 = .error .incorrectPassword) ∧
    (checkPassword resp.password request.currentPassword = none →
      (resetPassword env db request).1 = .ok ()) := by
  constructor
  · rintro ⟨e, he⟩
    simp [resetPassword, hget, he]
  · intro hnone
    simp [resetPassword, hget, hnone, updateUser, repoUpdate]

/-- Witness for `c9_reset_password_check`: one call with the wrong
current password and one with the right one, against a stored bcrypt
hash. -/
theorem c9_witness :
    (resetPassword {}
      [{ id := "u1", email := "a@b.c", password := .bcryptHash "pw" 1,
         isActive := true }]
      { email := "a@b.c", currentPassword := "wrongpw12",
        newPassword := "newpass123" }).1 = .error .incorrectPassword ∧
    (resetPassword {}
      [{ id := "u1", email := "a@b.c", password := .bcryptHash "pw" 1,
         isActive := true }]
      { email := "a@b.c", currentPassword := "pw",
        newPassword := "newpass123" }).1 = .ok () :=
  ⟨(c9_reset_password_check {}
      [{ id := "u1", email := "a@b.c", password := .bcryptHash "pw" 1,
         isActive := true }]
      { email := "a@b.c", currentPassword := "wrongpw12",
        newPassword := "newpass123" }
      { id := "u1", email := "a@b.c", password := .bcryptHash "pw" 1,
        isActive := true } rfl).1 ⟨.incorrectPassword, rfl⟩,
   (c9_reset_password_check {}
      [{ id := "u1", email := "a@b.c", password := .bcryptHash "pw" 1,
         isActive := true }]
      { email := "a@b.c", currentPassword := "pw",
        newPassword := "newpass123" }
      { id := "u1", email := "a@b.c", password := .bcryptHash "pw" 1,
        isActive := true } rfl).2 rfl⟩

/-- C10 (confirmed): the account CreateUser stores keeps the request's
password only when the request's provider-issued id is empty; when the
provider-issued id is non-empty (the OAuth path) the stored password is
the empty string, whatever password value the request carried. -/
theorem c10_oauth_create_drops_password (env : Env) (db : DB)
    (user : RegisterRequestDto) (resp : UserResponseDto) (db2 : DB)
    (h : createUser env db user = .ok (resp, db2)) :
    ∃ a : Account, db2 = db ++ [a] ∧
      (user.providerID ≠ "" → a.password = .empty) ∧
      (user.providerID = "" → a.password = user.password) := by
  obtain ⟨a, hdb, _, hpw⟩ := createUser_ok_shape env db user resp db2 h
  refine ⟨a, hdb, ?_, ?_⟩
  · intro hne
    rw [hpw, if_neg hne]
  · intro he
    rw [hpw, if_pos he]

/-- Witness for `c10_oauth_create_drops_password`: an OAuth-path request
(providerID "g1") that even supplies a password value; the stored row's
password is empty. -/
theorem c10_witness :
    ∃ a : Account,
      [({ id := "id-1", email := "x@y.z", provider := "google",
          providerID := "g1" } : Account)] = ([] : DB) ++ [a] ∧
      (("g1" : String) ≠ "" → a.password = PwStr.empty) ∧
      (("g1" : String) = "" → a.password = PwStr.bcryptHash "supplied" 7) :=
  c10_oauth_create_drops_password {} []
    { email := "x@y.z", provider := "google", providerID := "g1",
      password := .bcryptHash "supplied" 7 }
    { id := "id-1", email := "x@y.z" }
    [{ id := "id-1", email := "x@y.z", provider := "google",
       providerID := "g1" }] rfl

end GoBackend
